import Mathlib

/-!
Shallow embedding of the model-configuration registry and the inference
configuration API of the pneumonia-demo backend, together with theorems
settling the specification claims about it.

Source files embedded:
  inference/models.py      (CDNModel and its methods)
  inference/views.py       (process_image, get_available_models,
                            get_available_models_list, MOCK_RESULTS)
  inference/middleware.py  (COOPCOEPMiddleware)
  inference/urls.py        (route declarations)
-/

/-! ## Data model: inference/models.py -/

/-- Scalar JSON values appearing in the mock bodies: strings, numbers
(modelled as rationals, so 0.87 is exact) and booleans. -/
inductive PyVal where
  | str (s : String)
  | num (q : Rat)
  | bool (b : Bool)
deriving Repr, DecidableEq

/-- Embedding of the Django model CDNModel (inference/models.py lines 4-30).
The database primary key is `id`; `classes` is the JSON list of class label
strings; `feature_layers` is the JSON object mapping layer names to dimension
objects, each dimension object being itself a string-to-integer JSON object
(documented format: sideLen and channels keys). The auto-set timestamps
created_at and updated_at are bookkeeping the claims never touch and are
omitted. -/
structure CDNModel where
  id : Nat
  name : String
  model_type : String
  cdn_url : String
  input_size : Int
  classification_layer : String
  classes : List String
  feature_layers : List (String × List (String × Int))
  batch_size : Int
  is_active : Bool
deriving Repr, DecidableEq

/-- MODEL_TYPES from inference/models.py lines 5-10: the fixed enumeration of
supported model variants, as (stored value, human label) pairs. -/
def MODEL_TYPES : List (String × String) :=
  [("yolon-artirilmisVeri-ONNX", "YOLO N Enhanced Data ONNX Format"),
   ("yolon-artirilmisVeri-ORT", "YOLO N Enhanced Data ORT Format"),
   ("yolos-artirilmisVeri", "YOLO S Enhanced Data"),
   ("yolom-artirilmisVeri", "YOLO M Enhanced Data")]

/-- Creating a CDNModel row supplying only the fields without defaults
(name, model_type, cdn_url; `id` stands for the auto primary key). Field
defaults are those declared in inference/models.py: input_size 224,
classification_layer "classification", classes empty list, feature_layers
empty dict, batch_size 8, is_active True. -/
def mkCDNModel (id : Nat) (name model_type cdn_url : String) : CDNModel :=
  { id := id
    name := name
    model_type := model_type
    cdn_url := cdn_url
    input_size := 224
    classification_layer := "classification"
    classes := []
    feature_layers := []
    batch_size := 8
    is_active := true }

/-- CDNModel.get_feature_layers_list (models.py lines 39-41): the list of
layer-name keys of feature_layers. -/
def CDNModel.get_feature_layers_list (m : CDNModel) : List String :=
  m.feature_layers.map Prod.fst

/-- CDNModel.get_layer_dimensions (models.py lines 43-45): Python
`self.feature_layers.get(layer_name, default)` is association lookup with a
fallback of width 32, height 32. -/
def CDNModel.get_layer_dimensions (m : CDNModel) (layer_name : String) :
    List (String × Int) :=
  (List.lookup layer_name m.feature_layers).getD [("width", 32), ("height", 32)]

/-- Key set of the documented feature-layer dimension schema (models.py
lines 22-25 help_text: sideLen and channels). -/
def feature_layer_schema_keys : List String := ["sideLen", "channels"]

/-! ## Views: inference/views.py -/

/-- Entry shape of the hardcoded available-models list in
views.get_available_models_list (views.py lines 86-92). -/
structure ModelInfo where
  id : String
  name : String
  size : String
  updated : String
deriving Repr, DecidableEq, Inhabited

/-- views.get_available_models_list (views.py lines 86-92): the hardcoded
helper list. -/
def get_available_models_list : List ModelInfo :=
  [{ id := "yolon-artirilmisVeri", name := "Pneumonia Detector v2 Fast",
     size := "6.2MB", updated := "2025-09-02" },
   { id := "yolos-artirilmisVeri", name := "Pneumonia Detector v2 Slow",
     size := "21.5MB", updated := "2025-09-02" },
   { id := "yolos-azVeri", name := "Pneumonia Detector V1 Slow",
     size := "21.4MB", updated := "2025-09-02" }]

/-- views.get_available_models (views.py lines 72-75): the view returning
the models list as JSON. The registry argument is the ambient database state
every view runs against; this view never consults it. -/
def get_available_models (_registry : List CDNModel) : List ModelInfo :=
  get_available_models_list

/-- MOCK_RESULTS (views.py lines 8-12). -/
def MOCK_RESULTS : List (String × PyVal) :=
  [("classification", PyVal.str "Bacterial Pneumonia"),
   ("confidence", PyVal.num (87 / 100)),
   ("heatmap_available", PyVal.bool true)]

/-- JSON body returned by views.process_image: keys present on the success
path are success, result, model_info, model_id; on the failure paths they
are success and error. Absent keys are `none` or the empty list. -/
structure ProcessBody where
  success : Bool
  result : List (String × PyVal)
  model_info : Option ModelInfo
  model_id : Option String
  error : Option String
deriving Repr, DecidableEq

/-- Failure body used by process_image: success False plus an error string. -/
def failure_body (e : String) : ProcessBody :=
  { success := false, result := [], model_info := none, model_id := none,
    error := some e }

/-- Side effects of one process_image call: whether the artificial
time.sleep happened and whether the model metadata list was read. -/
structure Effects where
  slept : Bool
  read_models : Bool
deriving Repr, DecidableEq

/-- Body of the try block of views.process_image (views.py lines 38-54),
for a POST whose form field model_id is `post` (absent means the default
string "default"): after the sleep, resolve model_info as the first
available model whose id equals model_id, falling back to element 0 of the
(concretely non-empty) available list, and return the success body. -/
def process_image_try (post : Option String) : ProcessBody :=
  let model_id := post.getD "default"
  let available_models := get_available_models_list
  let model_info :=
    (available_models.find? (fun m => m.id == model_id)).getD
      available_models.headI
  { success := true, result := MOCK_RESULTS, model_info := some model_info,
    model_id := some model_id, error := none }

/-- The except clause of views.process_image (views.py lines 56-64): a body
that raised is turned into the structured failure JSON with the exception
message. -/
def process_image_catch (body : Except String ProcessBody) : ProcessBody :=
  match body with
  | Except.ok r => r
  | Except.error e => failure_body e

/-- views.process_image (views.py lines 34-66). `method` is the HTTP method,
`post` the optional model_id form field, and `fault` injects an exception
raised inside the try block (`none` is the normal run). A non-POST request
returns the invalid-method body at once, before the sleep and before the
models list is read, which the Effects component records. -/
def process_image (method : String) (post : Option String)
    (fault : Option String) : ProcessBody × Effects :=
  if method = "POST" then
    (process_image_catch
      (match fault with
       | some e => Except.error e
       | none => Except.ok (process_image_try post)),
     { slept := true, read_models := true })
  else
    (failure_body "Invalid request method", { slept := false, read_models := false })

/-! ## Middleware: inference/middleware.py -/

/-- HTTP request as the middleware sees it. -/
structure HttpRequest where
  method : String
  path : String

/-- Django response: a status code and a header mapping. -/
structure DjangoResponse where
  status : Nat
  headers : String → Option String

/-- Header assignment `response[k] = v`. -/
def setHeader (r : DjangoResponse) (k v : String) : DjangoResponse :=
  { status := r.status,
    headers := fun x => if x = k then some v else r.headers x }

/-- COOPCOEPMiddleware.process_response (middleware.py lines 3-7): sets the
two cross-origin isolation headers on the outgoing response. -/
def COOPCOEPMiddleware.process_response (_req : HttpRequest)
    (resp : DjangoResponse) : DjangoResponse :=
  setHeader
    (setHeader resp "Cross-Origin-Embedder-Policy" "require-corp")
    "Cross-Origin-Opener-Policy" "same-origin"

/-- Modelled from the spec: the Django settings module that registers
COOPCOEPMiddleware process-wide is not under src (only middleware.py is);
per the spec the isolation headers are applied to every outgoing response,
so the application response for any view is the view response passed
through COOPCOEPMiddleware.process_response. -/
def app_response (view : HttpRequest → DjangoResponse)
    (req : HttpRequest) : DjangoResponse :=
  COOPCOEPMiddleware.process_response req (view req)

/-! ## Spec-side definitions for the list-models refinement claim -/

/-- Projection of a registry record demanded by the spec for list models:
the fields id, name, cdn_url, input_size, feature_layers, batch_size,
classification_layer and class_names. This definition follows the spec's
words, for comparison with the source-derived get_available_models. -/
structure SpecProjection where
  id : Nat
  name : String
  cdn_url : String
  input_size : Int
  feature_layers : List (String × List (String × Int))
  batch_size : Int
  classification_layer : String
  class_names : List String
deriving Repr, DecidableEq

/-- Spec-side projection of one record. -/
def spec_project (r : CDNModel) : SpecProjection :=
  { id := r.id, name := r.name, cdn_url := r.cdn_url,
    input_size := r.input_size, feature_layers := r.feature_layers,
    batch_size := r.batch_size,
    classification_layer := r.classification_layer,
    class_names := r.classes }

/-- Spec-side list models: exactly the active records, projected. -/
def spec_active_projections (registry : List CDNModel) : List SpecProjection :=
  (registry.filter (fun r => r.is_active)).map spec_project

/-! ## Theorems -/

/-- C7: a CDNModel record created without explicitly supplying the fields
gets input_size 224, classification_layer "classification", batch_size 8
and is_active true. -/
theorem cdnmodel_field_defaults (id : Nat) (name model_type cdn_url : String) :
    (mkCDNModel id name model_type cdn_url).input_size = 224 ∧
    (mkCDNModel id name model_type cdn_url).classification_layer =
      "classification" ∧
    (mkCDNModel id name model_type cdn_url).batch_size = 8 ∧
    (mkCDNModel id name model_type cdn_url).is_active = true :=
  ⟨rfl, rfl, rfl, rfl⟩

/-- C9: the served available-models list contains the ids yolos-azVeri and
yolon-artirilmisVeri, neither of which is a stored value of the MODEL_TYPES
enumeration, so not every identifier served to clients is drawn from the
registry's set of supported model variants. -/
theorem served_ids_escape_model_types :
    ("yolos-azVeri" ∈ get_available_models_list.map ModelInfo.id ∧
      "yolos-azVeri" ∉ MODEL_TYPES.map Prod.fst) ∧
    ("yolon-artirilmisVeri" ∈ get_available_models_list.map ModelInfo.id ∧
      "yolon-artirilmisVeri" ∉ MODEL_TYPES.map Prod.fst) := by
  decide

/-- Helper: a fallback element of the list keeps find?-with-default inside
the list. -/
theorem find_getD_mem {α : Type} (l : List α) (p : α → Bool) (d : α)
    (hd : d ∈ l) : (l.find? p).getD d ∈ l := by
  cases h : l.find? p with
  | none => simpa using hd
  | some a => simpa using List.mem_of_find?_eq_some h

/-- C1 counterexample: instantiated at the empty registry the claim says
the list-models view returns the projection of no record at all, i.e. a
list of the same (zero) length as the active projections; the code returns
its three hardcoded entries. -/
theorem list_models_not_registry_projection :
    ¬ ((get_available_models []).length =
        (spec_active_projections []).length) := by
  decide

/-- C1 amended: the list-models view ignores the registry state entirely
and, for every registry, returns the fixed hardcoded three-entry list of
get_available_models_list, whose entries carry the fields id, name, size
and updated rather than the spec projection. -/
theorem list_models_constant (registry : List CDNModel) :
    get_available_models registry = get_available_models_list ∧
    get_available_models_list =
      [{ id := "yolon-artirilmisVeri", name := "Pneumonia Detector v2 Fast",
         size := "6.2MB", updated := "2025-09-02" },
       { id := "yolos-artirilmisVeri", name := "Pneumonia Detector v2 Slow",
         size := "21.5MB", updated := "2025-09-02" },
       { id := "yolos-azVeri", name := "Pneumonia Detector V1 Slow",
         size := "21.4MB", updated := "2025-09-02" }] :=
  ⟨rfl, rfl⟩

/-- C2: a POST to the mock-inference view with any model_id yields success
true, a non-empty result, a model_info drawn from the available-models
list, and the first available model whenever model_id matches no known id. -/
theorem mock_inference_success_shape (model_id : String) :
    ((process_image "POST" (some model_id) none).fst.success = true) ∧
    ((process_image "POST" (some model_id) none).fst.result ≠ []) ∧
    (∃ mi, (process_image "POST" (some model_id) none).fst.model_info =
        some mi ∧ mi ∈ get_available_models_list) ∧
    ((∀ mi ∈ get_available_models_list, mi.id ≠ model_id) →
      (process_image "POST" (some model_id) none).fst.model_info =
        some get_available_models_list.headI) := by
  refine ⟨rfl, ?_, ?_, ?_⟩
  · simp [process_image, process_image_catch, process_image_try, MOCK_RESULTS]
  · refine ⟨(get_available_models_list.find?
        (fun m => m.id == model_id)).getD get_available_models_list.headI,
      ?_, ?_⟩
    · simp [process_image, process_image_catch, process_image_try]
    · exact find_getD_mem _ _ _ (by simp [get_available_models_list, List.headI])
  · intro h
    have hnone : get_available_models_list.find?
        (fun m => m.id == model_id) = none := by
      rw [List.find?_eq_none]
      intro x hx
      simpa using h x hx
    simp [process_image, process_image_catch, process_image_try, hnone]

/-- C2 witness at the unknown id zzz. -/
theorem mock_inference_success_shape_witness :
    (process_image "POST" (some "zzz") none).fst.model_info =
      some get_available_models_list.headI :=
  (mock_inference_success_shape "zzz").2.2.2 (by decide)

/-! ## Spec-modelled views and write path (code not under src) -/

/-- Body of the model-config and model-classes responses. -/
inductive ConfigBody where
  | record (m : CDNModel)
  | classes (cs : List String)
  | error (msg : String)
deriving Repr, DecidableEq

/-- Response of the model-config and model-classes views. -/
structure ConfigResponse where
  status : Nat
  body : ConfigBody
deriving Repr, DecidableEq

/-- Modelled from the spec: views.get_model_config is routed in urls.py
line 8 but its definition is not under src; per the spec it looks up the
single active record whose model_type matches and answers 404 with body
error "Model not found" when no active record matches. -/
def get_model_config (registry : List CDNModel) (model_type : String) :
    ConfigResponse :=
  match (registry.filter (fun r => r.is_active)).find?
      (fun r => r.model_type == model_type) with
  | some m => { status := 200, body := ConfigBody.record m }
  | none => { status := 404, body := ConfigBody.error "Model not found" }

/-- Modelled from the spec: views.get_model_classes is routed in urls.py
line 6 but its definition is not under src; per the spec it returns just
the classes field of the matching active record, with the same not-found
handling as get_model_config. -/
def get_model_classes (registry : List CDNModel) (model_type : String) :
    ConfigResponse :=
  match (registry.filter (fun r => r.is_active)).find?
      (fun r => r.model_type == model_type) with
  | some m => { status := 200, body := ConfigBody.classes m.classes }
  | none => { status := 404, body := ConfigBody.error "Model not found" }

/-- Modelled from the spec: the administrative write path (the upsert
enforcing model_type uniqueness, realized in the source only as the
unique=True column option of models.py line 13 whose enforcement lives in
the storage engine outside src). It conflicts when a different record id
already uses the model_type, updates in place on an id match, and appends
otherwise. -/
def upsert (st : List CDNModel) (rec : CDNModel) :
    Except String (List CDNModel) :=
  if st.any (fun r => r.model_type == rec.model_type && !(r.id == rec.id)) then
    Except.error "ConflictError"
  else if st.any (fun r => r.id == rec.id) then
    Except.ok (st.map (fun r => if r.id == rec.id then rec else r))
  else
    Except.ok (st ++ [rec])

/-- Registry state after an upsert attempt: the new state on success, the
old state untouched when the write was rejected. -/
def upsert_state (st : List CDNModel) (rec : CDNModel) : List CDNModel :=
  match upsert st rec with
  | Except.ok st2 => st2
  | Except.error _ => st

/-- C3: when no active record has the requested model_type, get_model_config
returns 404 with body error "Model not found", and get_model_classes
handles the miss identically, whatever else the registry holds. -/
theorem model_config_miss_404 (registry : List CDNModel) (t : String)
    (h : ∀ r ∈ registry, r.is_active = true → r.model_type ≠ t) :
    get_model_config registry t =
      { status := 404, body := ConfigBody.error "Model not found" } ∧
    get_model_classes registry t =
      { status := 404, body := ConfigBody.error "Model not found" } := by
  have hnone : (registry.filter (fun r => r.is_active)).find?
      (fun r => r.model_type == t) = none := by
    rw [List.find?_eq_none]
    intro x hx
    have hx2 := List.mem_filter.mp hx
    simpa using h x hx2.1 (by simpa using hx2.2)
  constructor
  · simp [get_model_config, hnone]
  · simp [get_model_classes, hnone]

/-- C3 witness: a registry holding one active record of another type still
answers 404 for the unknown type. -/
theorem model_config_miss_404_witness :
    get_model_config [mkCDNModel 1 "A" "yolom-artirilmisVeri"
        "https://cdn.example/a"] "unknown-type" =
      { status := 404, body := ConfigBody.error "Model not found" } :=
  (model_config_miss_404
    [mkCDNModel 1 "A" "yolom-artirilmisVeri" "https://cdn.example/a"]
    "unknown-type" (by decide)).1

/-- C4: every response produced by the application, whatever the view and
the request, carries the two cross-origin isolation headers. -/
theorem all_responses_carry_isolation_headers
    (view : HttpRequest → DjangoResponse) (req : HttpRequest) :
    (app_response view req).headers "Cross-Origin-Embedder-Policy" =
      some "require-corp" ∧
    (app_response view req).headers "Cross-Origin-Opener-Policy" =
      some "same-origin" := by
  constructor
  · show (if "Cross-Origin-Embedder-Policy" = "Cross-Origin-Opener-Policy"
        then some "same-origin"
        else if "Cross-Origin-Embedder-Policy" = "Cross-Origin-Embedder-Policy"
          then some "require-corp"
          else (view req).headers "Cross-Origin-Embedder-Policy") =
      some "require-corp"
    rw [if_neg (by decide), if_pos rfl]
  · show (if "Cross-Origin-Opener-Policy" = "Cross-Origin-Opener-Policy"
        then some "same-origin"
        else if "Cross-Origin-Opener-Policy" = "Cross-Origin-Embedder-Policy"
          then some "require-corp"
          else (view req).headers "Cross-Origin-Opener-Policy") =
      some "same-origin"
    rw [if_pos rfl]

/-- C5: whenever an exception is raised inside the POST handler of the
mock-inference view, the view catches it and returns the structured body
with success false and the exception message, never an unhandled fault. -/
theorem mock_inference_catches_exceptions (post : Option String) (e : String) :
    (process_image "POST" post (some e)).fst = failure_body e := by
  simp [process_image, process_image_catch]

/-- C6: creating a record whose model_type is already used by a record with
a different id is rejected with a conflict, and the registry state after
the failed attempt is unchanged. -/
theorem upsert_conflict_on_duplicate_model_type
    (st : List CDNModel) (r0 rec : CDNModel) (hmem : r0 ∈ st)
    (htype : r0.model_type = rec.model_type) (hid : r0.id ≠ rec.id) :
    upsert st rec = Except.error "ConflictError" ∧
    upsert_state st rec = st := by
  have hany : st.any
      (fun r => r.model_type == rec.model_type && !(r.id == rec.id)) = true := by
    rw [List.any_eq_true]
    exact ⟨r0, hmem, by simp [htype, hid]⟩
  have hup : upsert st rec = Except.error "ConflictError" := by
    simp [upsert, hany]
  exact ⟨hup, by simp [upsert_state, hup]⟩

/-- C6 witness: a second record reusing model_type yolos-artirilmisVeri
under a fresh id is rejected and the one-record registry is untouched. -/
theorem upsert_conflict_witness :
    upsert [mkCDNModel 1 "A" "yolos-artirilmisVeri" "https://cdn.example/a"]
        (mkCDNModel 2 "B" "yolos-artirilmisVeri" "https://cdn.example/b") =
      Except.error "ConflictError" ∧
    upsert_state
        [mkCDNModel 1 "A" "yolos-artirilmisVeri" "https://cdn.example/a"]
        (mkCDNModel 2 "B" "yolos-artirilmisVeri" "https://cdn.example/b") =
      [mkCDNModel 1 "A" "yolos-artirilmisVeri" "https://cdn.example/a"] :=
  upsert_conflict_on_duplicate_model_type
    [mkCDNModel 1 "A" "yolos-artirilmisVeri" "https://cdn.example/a"]
    (mkCDNModel 1 "A" "yolos-artirilmisVeri" "https://cdn.example/a")
    (mkCDNModel 2 "B" "yolos-artirilmisVeri" "https://cdn.example/b")
    (by decide) rfl (by decide)

/-- C8: get_layer_dimensions returns the stored feature_layers entry when
the layer name is a key, and otherwise the fixed width 32, height 32
fallback, whose keys are not the documented sideLen, channels schema. -/
theorem get_layer_dimensions_spec (m : CDNModel) (layer_name : String) :
    (∀ d, List.lookup layer_name m.feature_layers = some d →
      m.get_layer_dimensions layer_name = d) ∧
    (List.lookup layer_name m.feature_layers = none →
      m.get_layer_dimensions layer_name = [("width", 32), ("height", 32)]) ∧
    ([("width", (32 : Int)), ("height", 32)].map Prod.fst ≠
      feature_layer_schema_keys) := by
  refine ⟨?_, ?_, by decide⟩
  · intro d hd
    simp [CDNModel.get_layer_dimensions, hd]
  · intro hn
    simp [CDNModel.get_layer_dimensions, hn]

/-- C8 witness: on a record exposing only conv1, the stored entry is
returned for conv1 and the width-height fallback for conv2. -/
theorem get_layer_dimensions_spec_witness :
    ({ mkCDNModel 1 "A" "yolos-artirilmisVeri" "https://cdn.example/a" with
        feature_layers :=
          [("conv1", [("sideLen", 14), ("channels", 64)])] } :
      CDNModel).get_layer_dimensions "conv2" =
      [("width", 32), ("height", 32)] :=
  (get_layer_dimensions_spec
    { mkCDNModel 1 "A" "yolos-artirilmisVeri" "https://cdn.example/a" with
      feature_layers := [("conv1", [("sideLen", 14), ("channels", 64)])] }
    "conv2").2.1 (by decide)

/-- C10: a request to the mock-inference view whose method is not POST gets
exactly the invalid-method failure body, with no sleep performed and no
model metadata read. -/
theorem mock_inference_non_post (method : String) (post fault : Option String)
    (h : method ≠ "POST") :
    process_image method post fault =
      (failure_body "Invalid request method",
        { slept := false, read_models := false }) := by
  simp [process_image, h]

/-- C10 witness at a GET request. -/
theorem mock_inference_non_post_witness :
    process_image "GET" none none =
      (failure_body "Invalid request method",
        { slept := false, read_models := false }) :=
  mock_inference_non_post "GET" none none (by decide)
